import Mathlib

/-!
Verification of the `fastnoise2-sys` build script (`build/main.rs`)
against its natural-language specification.

The build script is modelled by a shallow embedding: the process
environment and the external-tool oracles are collected in a `World`
value, the filesystem is an abstract `FS` value threaded through every
step, and each observable action (network download attempt, external
tool run, emitted cargo directive, entry into a builder) is recorded in
an event trace.  Fatal paths (`panic!` / `expect` in the Rust source)
are modelled with `Except.error`; the success value carries the trace
and the final filesystem.

Modelling conventions, stated once here:
* Required cargo-supplied variables (`OUT_DIR`, `CARGO_MANIFEST_DIR`,
  `CARGO_CFG_TARGET_ARCH/OS/ENV`) are total fields of `Env`; cargo
  always supplies them and no claim concerns their absence.
* Filesystem copies guarded by `.expect` in the source are modelled as
  succeeding; the fallible operations that the source explicitly
  tolerates (`create_dir_all(..).ok()?` in the prebuilt fetcher, the
  `.ok()`-ignored write-through bindings-cache operations) each get
  their own oracle bit in `World`.
* The effects of external processes on the filesystem (the tarball
  written by curl/wget together with `tar` extraction, and the cmake
  build/install tree) are oracle functions `tarEffect` / `cmakeEffect`;
  their process exit statuses are oracle booleans.
-/

namespace FastNoise2Build

/-- A filesystem path, as the list of components joined by `PathBuf::join`. -/
abbrev Path := List String

/-- Observable actions of the build script, in program order. -/
inductive Event where
  /-- A network download attempt through the named external tool. -/
  | download (tool : String) (url : String)
  /-- An invocation of the external `tar` extractor. -/
  | tarRun
  /-- A `cargo:rustc-link-search=native=` directive. -/
  | linkSearch (p : Path)
  /-- A `cargo:rustc-link-lib=` directive with its kind (`static`/`dylib`). -/
  | linkLib (kind : String) (lib : String)
  /-- A `cargo:warning=` diagnostic line. -/
  | warn
  /-- Entry into `build_from_source` (the native source builder). -/
  | enterBuildFromSource
  /-- Entry into `build_wasm_from_source` (the WASM source builder). -/
  | enterBuildWasmFromSource
  /-- An invocation of the external cmake build with its profile and `-D` defines. -/
  | cmakeRun (profile : String) (defines : List (String × String))
  /-- An invocation of the bindgen generator on the given header path. -/
  | bindgenRun (header : Path)
  /-- Entry into `emit_std_cpp_link`. -/
  | stdCppLink
  deriving DecidableEq, Repr

/-- Abstract filesystem: existence, file contents, and directory listings.
`entries` models `read_dir` results and is only consulted for the
`Utility` header source directory; plain file writes do not update it
(no code path lists a directory it has written into). -/
structure FS where
  pathExists : Path → Bool
  content : Path → Option String
  entries : Path → List String

/-- Model of the std fs copy call: the destination now exists with the content of the source. -/
def FS.copyFile (fs : FS) (src dst : Path) : FS where
  pathExists := fun p => if p = dst then true else fs.pathExists p
  content := fun p => if p = dst then fs.content src else fs.content p
  entries := fs.entries

/-- Model of the std fs create_dir_all call.  Ancestors are not tracked: no code path
re-checks an ancestor of a directory it created. -/
def FS.mkdirAll (fs : FS) (d : Path) : FS where
  pathExists := fun p => if p = d then true else fs.pathExists p
  content := fs.content
  entries := fs.entries

/-- Writing a fresh file with the given content. -/
def FS.writeFile (fs : FS) (p : Path) (c : String) : FS where
  pathExists := fun q => if q = p then true else fs.pathExists q
  content := fun q => if q = p then some c else fs.content q
  entries := fs.entries

/-- The process environment as read by the build script. -/
structure Env where
  /-- Whether `DOCS_RS` is set. -/
  docsRs : Bool
  /-- Value of `CARGO_CFG_TARGET_ARCH`. -/
  targetArch : String
  /-- Value of `CARGO_CFG_TARGET_OS`. -/
  targetOs : String
  /-- Value of `CARGO_CFG_TARGET_ENV` (the ABI). -/
  targetEnv : String
  /-- Value of `OUT_DIR`. -/
  outDir : String
  /-- Value of `CARGO_MANIFEST_DIR`. -/
  manifestDir : String
  /-- Optional `FASTNOISE2_SOURCE_DIR` override. -/
  sourceDir : Option String
  /-- Optional `FASTNOISE2_LIB_DIR` override. -/
  libDir : Option String
  /-- Optional `FASTNOISE2_BINDINGS_DIR` override. -/
  bindingsDir : Option String
  /-- The `build-from-source` cargo feature (`CARGO_FEATURE_BUILD_FROM_SOURCE`) is set. -/
  buildFromSource : Bool
  /-- Whether `FASTNOISE2_BUILD_WASM_FROM_SOURCE` is set. -/
  wasmFromSource : Bool
  /-- Optional `EMSDK` SDK root. -/
  emsdk : Option String

/-- The environment plus oracles for every external effect. -/
structure World where
  env : Env
  /-- Whether `create_dir_all(prebuilt_dir)` succeeds (`.ok()?` in the fetcher). -/
  mkdirPrebuiltOk : Bool
  /-- Exit status of the `curl` download. -/
  curlOk : Bool
  /-- Exit status of the `wget` download. -/
  wgetOk : Bool
  /-- Exit status of the `tar` extraction. -/
  tarOk : Bool
  /-- Filesystem effect of the download plus `tar` extraction. -/
  tarEffect : FS → FS
  /-- The install directory returned by `cmake::Config::build`. -/
  cmakeOut : Path
  /-- Filesystem effect of the cmake build. -/
  cmakeEffect : FS → FS
  /-- Whether `bindgen .. .generate()` succeeds. (It fails in particular
  when the header is missing.) -/
  bindgenOk : Bool
  /-- Whether `write_to_file(bindings_path)` succeeds. -/
  bindingsWriteOk : Bool
  /-- The generated bindings text. -/
  bindgenOutput : String
  /-- Whether `create_dir_all(cache_path)` succeeds (result ignored by the source). -/
  cacheMkdirOk : Bool
  /-- Whether the copy into the bindings cache succeeds (result ignored by the source). -/
  cacheCopyOk : Bool

/-- Source constant `LIB_NAME`. -/
def LIB_NAME : String := "FastNoise"

/-- Source constant `HEADER_NAME`. -/
def HEADER_NAME : String := "FastNoise_C.h"

/-- Source constant `WASM_PREBUILT_REPO`. -/
def WASM_PREBUILT_REPO : String := "api-haus/fastnoise2-rs"

/-- Source constant `WASM_PREBUILT_TAG`. -/
def WASM_PREBUILT_TAG : String := "wasm-prebuilt-v1"

/-- The fixed, versioned archive URL built by `format!` in the fetcher. -/
def wasm_prebuilt_url : String :=
  "https://github.com/" ++ WASM_PREBUILT_REPO ++ "/releases/download/"
    ++ WASM_PREBUILT_TAG ++ "/fastnoise2-wasm-prebuilt.tar.gz"

/-- Model of `default_source_path`: `CARGO_MANIFEST_DIR/build/FastNoise2`. -/
def default_source_path (e : Env) : Path :=
  [e.manifestDir, "build", "FastNoise2"]

/-- The path `OUT_DIR/wasm-prebuilt`, the fixed prebuilt cache directory. -/
def wasm_prebuilt_dir_path (e : Env) : Path :=
  [e.outDir, "wasm-prebuilt"]

/-- The path `OUT_DIR/wasm-prebuilt/libFastNoise.a`, the cache-hit test file. -/
def wasm_lib_file_path (e : Env) : Path :=
  [e.outDir, "wasm-prebuilt", "libFastNoise.a"]

/-- The path `OUT_DIR/bindings.rs`, the fixed bindings output path. -/
def bindings_out_path (e : Env) : Path :=
  [e.outDir, "bindings.rs"]

/-- The result of one build-script step: a fatal abort message, or the
emitted event trace together with the final filesystem. -/
abbrev BuildResult := Except String (List Event × FS)

/-- Model of `try_download_wasm_prebuilt`, returning the `Option<PathBuf>`
result of the Rust function together with the events it emitted and the
filesystem it leaves behind.  The function itself never aborts. -/
def try_download_wasm_prebuilt (w : World) (fs : FS) :
    Option Path × List Event × FS :=
  -- Skip if the user explicitly wants to build from source.
  if w.env.wasmFromSource then
    (none, [Event.warn], fs)
  else
    -- Already downloaded?
    if fs.pathExists (wasm_lib_file_path w.env) then
      (some (wasm_prebuilt_dir_path w.env), [Event.warn], fs)
    else
      -- warn(Downloading ..) is printed before create_dir_all.
      if w.mkdirPrebuiltOk then
        let fs1 := fs.mkdirAll (wasm_prebuilt_dir_path w.env)
        -- Try curl first, then wget.
        let dls : List Event :=
          if w.curlOk then [Event.download "curl" wasm_prebuilt_url]
          else [Event.download "curl" wasm_prebuilt_url,
                Event.download "wget" wasm_prebuilt_url]
        if w.curlOk || w.wgetOk then
          let fs2 := w.tarEffect fs1
          if w.tarOk then
            if fs2.pathExists (wasm_lib_file_path w.env) then
              (some (wasm_prebuilt_dir_path w.env),
               [Event.warn] ++ dls ++ [Event.tarRun, Event.warn], fs2)
            else
              (none, [Event.warn] ++ dls ++ [Event.tarRun, Event.warn], fs2)
          else
            (none, [Event.warn] ++ dls ++ [Event.tarRun, Event.warn], fs2)
        else
          (none, [Event.warn] ++ dls ++ [Event.warn], fs1)
      else
        -- `create_dir_all(&prebuilt_dir).ok()?`: soft failure.
        (none, [Event.warn], fs)

/-- The flag string chosen for `CMAKE_CXX_FLAGS_RELEASE` by the lookup on
`(CARGO_CFG_TARGET_OS, CARGO_CFG_TARGET_ENV)` in `build_from_source`. -/
def cmake_cxx_flags_release (os abi : String) : String :=
  match os, abi with
  | "windows", "msvc" => "/MD /O2 /Ob2 /DNDEBUG"
  | _, _ => "-O3 -DNDEBUG"

/-- The fixed SIMD flag bound to `wasm_flags` in `build_wasm_from_source`. -/
def wasm_flags : String := "-msimd128"

/-- The cmake `-D` defines set by `build_wasm_from_source`, in order. -/
def wasm_cmake_defines (toolchain_file : String) : List (String × String) :=
  [("CMAKE_TOOLCHAIN_FILE", toolchain_file),
   ("FASTNOISE2_TOOLS", "OFF"),
   ("FASTNOISE2_TESTS", "OFF"),
   ("FASTNOISE2_UTILITY", "OFF"),
   ("BUILD_SHARED_LIBS", "OFF"),
   ("CMAKE_C_FLAGS", wasm_flags),
   ("CMAKE_CXX_FLAGS", wasm_flags)]

/-- The cmake `-D` defines set by `build_from_source`, in order. -/
def native_cmake_defines (os abi : String) : List (String × String) :=
  [("FASTNOISE2_TOOLS", "OFF"),
   ("FASTNOISE2_TESTS", "OFF"),
   ("FASTNOISE2_UTILITY", "OFF"),
   ("BUILD_SHARED_LIBS", "OFF"),
   ("CMAKE_CXX_FLAGS_RELEASE", cmake_cxx_flags_release os abi)]

/-- The post-build header-repair step shared verbatim by
`build_from_source` and `build_wasm_from_source`: copy the `Utility`
header subdirectory from the source tree into the installed include
tree, only when the source subdirectory exists and the destination does
not.  The `.expect`-guarded directory creation and copies are modelled
as succeeding. -/
def copy_utility_headers (source_path out_path : Path) (fs : FS) : FS :=
  let src_utility := source_path ++ ["include", "FastNoise", "Utility"]
  let dst_utility := out_path ++ ["include", "FastNoise", "Utility"]
  if fs.pathExists src_utility && !fs.pathExists dst_utility then
    let names := fs.entries src_utility
    { pathExists := fun p =>
        if p = dst_utility then true
        else if names.any (fun n => p = dst_utility ++ [n]) then true
        else fs.pathExists p
      content := fun p =>
        match names.find? (fun n => p = dst_utility ++ [n]) with
        | some n => fs.content (src_utility ++ [n])
        | none => fs.content p
      entries := fun p => if p = dst_utility then names else fs.entries p }
  else fs

/-- The tail of `generate_bindings` past the cache check: fresh
generation by bindgen, the write to `OUT_DIR/bindings.rs`, and the
`.ok()`-ignored write-through into the bindings cache. -/
def generate_bindings_fresh (w : World) (source_path : Path) (fs : FS) :
    BuildResult :=
  let include_path := source_path ++ ["include", "FastNoise"]
  let header_path := include_path ++ [HEADER_NAME]
  if w.bindgenOk then
    if w.bindingsWriteOk then
      let fs1 := fs.writeFile (bindings_out_path w.env) w.bindgenOutput
      match w.env.bindingsDir with
      | some cache_dir =>
        -- Save to cache if dir is set; both operations ignore failure.
        let fs2 := if w.cacheMkdirOk then fs1.mkdirAll [cache_dir] else fs1
        let fs3 :=
          if w.cacheCopyOk then
            fs2.copyFile (bindings_out_path w.env) [cache_dir, "bindings.rs"]
          else fs2
        .ok ([Event.warn, Event.bindgenRun header_path, Event.warn, Event.warn], fs3)
      | none =>
        .ok ([Event.warn, Event.bindgenRun header_path, Event.warn], fs1)
    else .error "Couldnt write bindings!"
  else .error "Unable to generate bindings"

/-- The middle of `generate_bindings`: the external bindings-cache
check, falling through to fresh generation. -/
def generate_bindings_cached (w : World) (source_path : Path) (fs : FS) :
    BuildResult :=
  match w.env.bindingsDir with
  | some cache_dir =>
    if fs.pathExists [cache_dir, "bindings.rs"] then
      .ok ([Event.warn],
           fs.copyFile [cache_dir, "bindings.rs"] (bindings_out_path w.env))
    else generate_bindings_fresh w source_path fs
  | none => generate_bindings_fresh w source_path fs

/-- Model of `generate_bindings`: vendored snapshot (wasm32 only), then external
cache, then fresh generation. -/
def generate_bindings (w : World) (source_path : Path) (fs : FS) :
    BuildResult :=
  if w.env.targetArch = "wasm32" then
    let vendored : Path := [w.env.manifestDir, "src", "bindings_vendored.rs"]
    if fs.pathExists vendored then
      .ok ([Event.warn], fs.copyFile vendored (bindings_out_path w.env))
    else
      -- warn(vendored bindings not found), then fall through.
      match generate_bindings_cached w source_path fs with
      | .ok (tr, fs1) => .ok (Event.warn :: tr, fs1)
      | .error e => .error e
  else generate_bindings_cached w source_path fs

/-- Model of `build_wasm_from_source`: requires `EMSDK` (fatal if absent), runs
cmake with the Emscripten toolchain and the SIMD flags, emits the link
directives, repairs the `Utility` headers, and generates bindings. -/
def build_wasm_from_source (w : World) (fs : FS) : BuildResult :=
  let source_path :=
    match w.env.sourceDir with
    | some d => [d]
    | none => default_source_path w.env
  match w.env.emsdk with
  | none =>
    .error "EMSDK environment variable required for WASM builds"
  | some emsdk_path =>
    let toolchain_file :=
      emsdk_path ++ "/upstream/emscripten/cmake/Modules/Platform/Emscripten.cmake"
    let out_path := w.cmakeOut
    let fs1 := w.cmakeEffect fs
    let tr1 : List Event :=
      [Event.enterBuildWasmFromSource, Event.warn, Event.warn,
       Event.cmakeRun "Release" (wasm_cmake_defines toolchain_file),
       Event.linkSearch (out_path ++ ["lib"]),
       Event.linkSearch (out_path ++ ["lib64"]),
       Event.linkLib "static" LIB_NAME]
    let fs2 := copy_utility_headers source_path out_path fs1
    match generate_bindings w out_path fs2 with
    | .ok (tr2, fs3) => .ok (tr1 ++ tr2, fs3)
    | .error e => .error e

/-- Model of `build_from_source`: runs cmake with the per-platform release flags,
emits the link directives, repairs the `Utility` headers, and generates
bindings. -/
def build_from_source (w : World) (fs : FS) : BuildResult :=
  let source_path :=
    match w.env.sourceDir with
    | some d => [d]
    | none => default_source_path w.env
  let out_path := w.cmakeOut
  let fs1 := w.cmakeEffect fs
  let tr1 : List Event :=
    [Event.enterBuildFromSource, Event.warn, Event.warn,
     Event.cmakeRun "Release"
       (native_cmake_defines w.env.targetOs w.env.targetEnv),
     Event.linkSearch (out_path ++ ["lib"]),
     Event.linkSearch (out_path ++ ["lib64"]),
     Event.linkLib "static" LIB_NAME]
  let fs2 := copy_utility_headers source_path out_path fs1
  match generate_bindings w out_path fs2 with
  | .ok (tr2, fs3) => .ok (tr1 ++ tr2, fs3)
  | .error e => .error e

/-- Model of `build_wasm`: prebuilt fetch first; on success link it and copy the
bundled bindings file when it is present; otherwise fall back to the
WASM source build. -/
def build_wasm (w : World) (fs : FS) : BuildResult :=
  let r := try_download_wasm_prebuilt w fs
  match r.1 with
  | some prebuilt_path =>
    let fs0 := r.2.2
    let bindings_src := prebuilt_path ++ ["bindings.rs"]
    let tr := r.2.1 ++
      [Event.warn, Event.linkSearch prebuilt_path, Event.linkLib "static" LIB_NAME]
    if fs0.pathExists bindings_src then
      .ok (tr, fs0.copyFile bindings_src (bindings_out_path w.env))
    else
      .ok (tr, fs0)
  | none =>
    match build_wasm_from_source w r.2.2 with
    | .ok (tr2, fs2) => .ok (r.2.1 ++ Event.warn :: tr2, fs2)
    | .error e => .error e

/-- The pure `(target_os, target_env)` table inside `emit_std_cpp_link`. -/
def std_cpp_link_directives (os abi : String) : List Event :=
  match os, abi with
  | "linux", _ => [Event.linkLib "dylib" "stdc++"]
  | "windows", "gnu" => [Event.linkLib "dylib" "stdc++"]
  | "macos", _ => [Event.linkLib "dylib" "c++"]
  | "freebsd", _ => [Event.linkLib "dylib" "c++"]
  | "windows", "msvc" => []
  | _, _ => [Event.warn]

/-- Model of `emit_std_cpp_link`: the `stdCppLink` marker records that the step
executed; the directives follow the pure table. -/
def emit_std_cpp_link (os abi : String) : List Event :=
  Event.stdCppLink :: std_cpp_link_directives os abi

/-- Appending the `emit_std_cpp_link` events to a successful result;
`main` runs this after any of its three native branches. -/
def with_std_cpp_link (os abi : String) : BuildResult → BuildResult
  | .ok (tr, fs) => .ok (tr ++ emit_std_cpp_link os abi, fs)
  | .error e => .error e

/-- Model of `fn main` of the build script. -/
def main (w : World) (fs : FS) : BuildResult :=
  if w.env.docsRs then
    match generate_bindings w (default_source_path w.env) fs with
    | .ok (tr, fs1) => .ok (Event.warn :: tr, fs1)
    | .error e => .error e
  else if w.env.targetArch = "wasm32" then
    -- WASM does not need C++ stdlib linking: early return.
    build_wasm w fs
  else
    with_std_cpp_link w.env.targetOs w.env.targetEnv
      (if w.env.buildFromSource then
        match build_from_source w fs with
        | .ok (tr, fs1) => .ok (Event.warn :: tr, fs1)
        | .error e => .error e
      else
        match w.env.libDir with
        | some lib_dir =>
          match generate_bindings w (default_source_path w.env) fs with
          | .ok (tr, fs1) =>
            .ok ([Event.warn, Event.linkSearch [lib_dir],
                  Event.linkLib "static" LIB_NAME] ++ tr, fs1)
          | .error e => .error e
        | none =>
          match build_from_source w fs with
          | .ok (tr, fs1) => .ok (Event.warn :: tr, fs1)
          | .error e => .error e)

/-! ## Helper lemmas -/

@[simp]
theorem FS.copyFile_pathExists (fs : FS) (s d q : Path) :
    (fs.copyFile s d).pathExists q = if q = d then true else fs.pathExists q :=
  rfl

@[simp]
theorem FS.copyFile_content (fs : FS) (s d q : Path) :
    (fs.copyFile s d).content q = if q = d then fs.content s else fs.content q :=
  rfl

@[simp]
theorem FS.mkdirAll_pathExists (fs : FS) (d q : Path) :
    (fs.mkdirAll d).pathExists q = if q = d then true else fs.pathExists q :=
  rfl

@[simp]
theorem FS.writeFile_pathExists (fs : FS) (p : Path) (c : String) (q : Path) :
    (fs.writeFile p c).pathExists q = if q = p then true else fs.pathExists q :=
  rfl

@[simp]
theorem FS.writeFile_content (fs : FS) (p : Path) (c : String) (q : Path) :
    (fs.writeFile p c).content q = if q = p then some c else fs.content q :=
  rfl

/-- Every event of a successful fresh generation is a warning or the
bindgen invocation on the header inside the supplied source tree. -/
theorem generate_bindings_fresh_events (w : World) (sp : Path) (fs : FS)
    (tr : List Event) (fs1 : FS)
    (hok : generate_bindings_fresh w sp fs = .ok (tr, fs1)) :
    ∀ e ∈ tr, e = Event.warn ∨
      e = Event.bindgenRun (sp ++ ["include", "FastNoise"] ++ [HEADER_NAME]) := by
  simp only [generate_bindings_fresh] at hok
  split at hok
  · split at hok
    · split at hok <;>
        (simp only [Except.ok.injEq, Prod.mk.injEq] at hok
         obtain ⟨h1, -⟩ := hok
         subst h1
         intro e he
         fin_cases he <;> simp)
    · exact Except.noConfusion hok
  · exact Except.noConfusion hok

/-- Every event of a successful cache-or-fresh generation is a warning
or the bindgen invocation on the header. -/
theorem generate_bindings_cached_events (w : World) (sp : Path) (fs : FS)
    (tr : List Event) (fs1 : FS)
    (hok : generate_bindings_cached w sp fs = .ok (tr, fs1)) :
    ∀ e ∈ tr, e = Event.warn ∨
      e = Event.bindgenRun (sp ++ ["include", "FastNoise"] ++ [HEADER_NAME]) := by
  simp only [generate_bindings_cached] at hok
  split at hok
  · split at hok
    · simp only [Except.ok.injEq, Prod.mk.injEq] at hok
      obtain ⟨h1, -⟩ := hok
      subst h1
      intro e he
      fin_cases he
      simp
    · exact generate_bindings_fresh_events w sp fs tr fs1 hok
  · exact generate_bindings_fresh_events w sp fs tr fs1 hok

/-- Every event of a successful `generate_bindings` is a warning or the
bindgen invocation on the header inside the supplied source tree. -/
theorem generate_bindings_events (w : World) (sp : Path) (fs : FS)
    (tr : List Event) (fs1 : FS)
    (hok : generate_bindings w sp fs = .ok (tr, fs1)) :
    ∀ e ∈ tr, e = Event.warn ∨
      e = Event.bindgenRun (sp ++ ["include", "FastNoise"] ++ [HEADER_NAME]) := by
  simp only [generate_bindings] at hok
  split at hok
  · split at hok
    · simp only [Except.ok.injEq, Prod.mk.injEq] at hok
      obtain ⟨h1, -⟩ := hok
      subst h1
      intro e he
      fin_cases he
      simp
    · split at hok
      · rename_i tr0 fs0 heq
        simp only [Except.ok.injEq, Prod.mk.injEq] at hok
        obtain ⟨h1, -⟩ := hok
        subst h1
        intro e he
        rcases List.mem_cons.mp he with rfl | he
        · exact Or.inl rfl
        · exact generate_bindings_cached_events w sp fs tr0 fs0 heq e he
      · exact Except.noConfusion hok
  · exact generate_bindings_cached_events w sp fs tr fs1 hok

/-- A successful fresh generation leaves the bindings file at the fixed
output path. -/
theorem generate_bindings_fresh_writes (w : World) (sp : Path) (fs : FS)
    (tr : List Event) (fs1 : FS)
    (hok : generate_bindings_fresh w sp fs = .ok (tr, fs1)) :
    fs1.pathExists (bindings_out_path w.env) = true := by
  simp only [generate_bindings_fresh] at hok
  split at hok
  · split at hok
    · split at hok <;>
        (simp only [Except.ok.injEq, Prod.mk.injEq] at hok
         obtain ⟨-, h2⟩ := hok
         subst h2) <;>
      first
        | (split <;> split <;> simp)
        | simp
    · exact Except.noConfusion hok
  · exact Except.noConfusion hok

/-- A successful cache-or-fresh generation leaves the bindings file at
the fixed output path. -/
theorem generate_bindings_cached_writes (w : World) (sp : Path) (fs : FS)
    (tr : List Event) (fs1 : FS)
    (hok : generate_bindings_cached w sp fs = .ok (tr, fs1)) :
    fs1.pathExists (bindings_out_path w.env) = true := by
  simp only [generate_bindings_cached] at hok
  split at hok
  · split at hok
    · simp only [Except.ok.injEq, Prod.mk.injEq] at hok
      obtain ⟨-, h2⟩ := hok
      subst h2
      simp
    · exact generate_bindings_fresh_writes w sp fs tr fs1 hok
  · exact generate_bindings_fresh_writes w sp fs tr fs1 hok

/-- A successful `generate_bindings` leaves the bindings file at the
fixed output path. -/
theorem generate_bindings_writes (w : World) (sp : Path) (fs : FS)
    (tr : List Event) (fs1 : FS)
    (hok : generate_bindings w sp fs = .ok (tr, fs1)) :
    fs1.pathExists (bindings_out_path w.env) = true := by
  simp only [generate_bindings] at hok
  split at hok
  · split at hok
    · simp only [Except.ok.injEq, Prod.mk.injEq] at hok
      obtain ⟨-, h2⟩ := hok
      subst h2
      simp
    · split at hok
      · rename_i tr0 fs0 heq
        simp only [Except.ok.injEq, Prod.mk.injEq] at hok
        obtain ⟨-, h2⟩ := hok
        exact h2 ▸ generate_bindings_cached_writes w sp fs tr0 fs0 heq
      · exact Except.noConfusion hok
  · exact generate_bindings_cached_writes w sp fs tr fs1 hok

/-- The header-repair step is the identity when its guard fails. -/
theorem copy_utility_headers_of_guard_false (source_path out_path : Path)
    (fs : FS)
    (h : ¬(fs.pathExists (source_path ++ ["include", "FastNoise", "Utility"]) &&
           !fs.pathExists (out_path ++ ["include", "FastNoise", "Utility"])) = true) :
    copy_utility_headers source_path out_path fs = fs := by
  simp only [copy_utility_headers]
  rw [if_neg h]

/-- When the header-repair step does copy, the destination directory
exists afterwards. -/
theorem copy_utility_headers_dst_exists (source_path out_path : Path)
    (fs : FS)
    (h : (fs.pathExists (source_path ++ ["include", "FastNoise", "Utility"]) &&
          !fs.pathExists (out_path ++ ["include", "FastNoise", "Utility"])) = true) :
    (copy_utility_headers source_path out_path fs).pathExists
      (out_path ++ ["include", "FastNoise", "Utility"]) = true := by
  simp only [copy_utility_headers]
  rw [if_pos h]
  simp

/-! ## Claims -/

/-- C7: the post-build header-repair step is idempotent and never
overwrites: the `Utility` subdirectory is copied only when the source
subdirectory exists and the destination does not (so an existing
destination is left untouched), and running the repair twice in
succession leaves the destination tree identical to its state after the
first run. -/
theorem c7_header_repair_idempotent (source_path out_path : Path) (fs : FS) :
    copy_utility_headers source_path out_path
        (copy_utility_headers source_path out_path fs) =
      copy_utility_headers source_path out_path fs
  ∧ (fs.pathExists (out_path ++ ["include", "FastNoise", "Utility"]) = true →
      copy_utility_headers source_path out_path fs = fs) := by
  constructor
  · by_cases h :
      (fs.pathExists (source_path ++ ["include", "FastNoise", "Utility"]) &&
       !fs.pathExists (out_path ++ ["include", "FastNoise", "Utility"])) = true
    · exact copy_utility_headers_of_guard_false source_path out_path _
        (by simp [copy_utility_headers_dst_exists source_path out_path fs h])
    · rw [copy_utility_headers_of_guard_false source_path out_path fs h]
      exact copy_utility_headers_of_guard_false source_path out_path fs h
  · intro h
    exact copy_utility_headers_of_guard_false source_path out_path fs (by simp [h])

/-- Concrete filesystem whose only entry is an already-present
destination `Utility` directory. -/
def fs_c7 : FS where
  pathExists := fun p => p == ["k", "include", "FastNoise", "Utility"]
  content := fun _ => none
  entries := fun _ => []

theorem c7_witness :
    copy_utility_headers ["s"] ["k"] fs_c7 = fs_c7 :=
  (c7_header_repair_idempotent ["s"] ["k"] fs_c7).2 (by decide)

/-- C8: the native source builder selects its release flags by a lookup
on (operating system, ABI): (windows, msvc) yields `/MD /O2 /Ob2 /DNDEBUG`
and every other pair yields `-O3 -DNDEBUG`; in wasm mode the fixed SIMD
flag `-msimd128` is injected into both the C and the C++ flag sets of
the cmake invocation. -/
theorem c8_release_flags_table :
    cmake_cxx_flags_release "windows" "msvc" = "/MD /O2 /Ob2 /DNDEBUG"
  ∧ (∀ os abi : String, ¬(os = "windows" ∧ abi = "msvc") →
      cmake_cxx_flags_release os abi = "-O3 -DNDEBUG")
  ∧ wasm_flags = "-msimd128"
  ∧ (∀ tf : String, ("CMAKE_C_FLAGS", wasm_flags) ∈ wasm_cmake_defines tf
      ∧ ("CMAKE_CXX_FLAGS", wasm_flags) ∈ wasm_cmake_defines tf)
  ∧ (∀ os abi : String,
      ("CMAKE_CXX_FLAGS_RELEASE", cmake_cxx_flags_release os abi) ∈
        native_cmake_defines os abi) := by
  refine ⟨rfl, ?_, rfl, ?_, ?_⟩
  · intro os abi h
    unfold cmake_cxx_flags_release
    split
    · simp_all
    · rfl
  · intro tf
    exact ⟨by simp [wasm_cmake_defines], by simp [wasm_cmake_defines]⟩
  · intro os abi
    simp [native_cmake_defines]

theorem c8_witness :
    cmake_cxx_flags_release "linux" "gnu" = "-O3 -DNDEBUG" :=
  c8_release_flags_table.2.1 "linux" "gnu" (by decide)

/-- C9: the C++ standard-library link table is a pure function of
(operating system, ABI): linux with any ABI and windows+gnu emit a
dynamic-link entry for `stdc++`; macos and freebsd with any ABI emit a
dynamic-link entry for `c++`; windows+msvc emits nothing; every other
combination emits a non-fatal warning and no link entry. -/
theorem c9_std_cpp_link_table :
    (∀ abi, std_cpp_link_directives "linux" abi = [Event.linkLib "dylib" "stdc++"])
  ∧ std_cpp_link_directives "windows" "gnu" = [Event.linkLib "dylib" "stdc++"]
  ∧ (∀ abi, std_cpp_link_directives "macos" abi = [Event.linkLib "dylib" "c++"])
  ∧ (∀ abi, std_cpp_link_directives "freebsd" abi = [Event.linkLib "dylib" "c++"])
  ∧ std_cpp_link_directives "windows" "msvc" = []
  ∧ (∀ os abi, os ≠ "linux" → os ≠ "macos" → os ≠ "freebsd" →
      (os = "windows" → abi ≠ "gnu" ∧ abi ≠ "msvc") →
      std_cpp_link_directives os abi = [Event.warn]) := by
  refine ⟨fun abi => rfl, rfl, fun abi => rfl, fun abi => rfl, rfl, ?_⟩
  intro os abi h1 h2 h3 h4
  unfold std_cpp_link_directives
  split <;> simp_all

theorem c9_witness :
    std_cpp_link_directives "solaris" "musl" = [Event.warn] :=
  c9_std_cpp_link_table.2.2.2.2.2 "solaris" "musl"
    (by decide) (by decide) (by decide) (by decide)

/-! ## Concrete example data for witnesses and counterexamples -/

/-- The empty filesystem. -/
def fs_empty : FS where
  pathExists := fun _ => false
  content := fun _ => none
  entries := fun _ => []

/-- A baseline native-target environment with no overrides. -/
def env_base : Env where
  docsRs := false
  targetArch := "x86_64"
  targetOs := "linux"
  targetEnv := "gnu"
  outDir := "o"
  manifestDir := "m"
  sourceDir := none
  libDir := none
  bindingsDir := none
  buildFromSource := false
  wasmFromSource := false
  emsdk := none

/-- A baseline world in which every external effect succeeds and leaves
the filesystem unchanged. -/
def world_base : World where
  env := env_base
  mkdirPrebuiltOk := true
  curlOk := true
  wgetOk := true
  tarOk := true
  tarEffect := fun fs => fs
  cmakeOut := ["k"]
  cmakeEffect := fun fs => fs
  bindgenOk := true
  bindingsWriteOk := true
  bindgenOutput := "B"
  cacheMkdirOk := true
  cacheCopyOk := true

/-- A filesystem already holding the cached prebuilt WASM library. -/
def fs_prebuilt_cached : FS where
  pathExists := fun p => p == ["o", "wasm-prebuilt", "libFastNoise.a"]
  content := fun _ => none
  entries := fun _ => []

/-- WASM target with the build-from-source override set. -/
def world_c1 : World :=
  { world_base with
    env := { env_base with targetArch := "wasm32", wasmFromSource := true } }

/-- WASM target with the override unset. -/
def world_c1b : World :=
  { world_base with
    env := { env_base with targetArch := "wasm32" } }

/-! ## Claims C1 and C3 (Remote Prebuilt Fetcher) -/

/-- C1 counterexample: with the build-WASM-from-source override set and
the cached library file present, the fetcher returns `none` — not the
cached path the claim promises — so the cache check is not performed
first. -/
theorem c1_counterexample :
    world_c1.env.wasmFromSource = true
  ∧ fs_prebuilt_cached.pathExists (wasm_lib_file_path world_c1.env) = true
  ∧ (try_download_wasm_prebuilt world_c1 fs_prebuilt_cached).1 = none := by
  decide

/-- C1 amended: the override check precedes the cache check — if the
build-WASM-from-source override is set the fetcher returns unavailable
without consulting the cache; otherwise a cache hit returns the cached
path immediately with zero network calls (the trace is a single
warning), and a download is only attempted when the override is unset
and the cache misses. -/
theorem c1_amended_override_then_cache (w : World) (fs : FS) :
    (w.env.wasmFromSource = true →
      try_download_wasm_prebuilt w fs = (none, [Event.warn], fs))
  ∧ (w.env.wasmFromSource = false →
      fs.pathExists (wasm_lib_file_path w.env) = true →
      try_download_wasm_prebuilt w fs =
        (some (wasm_prebuilt_dir_path w.env), [Event.warn], fs)) := by
  constructor
  · intro h
    simp only [try_download_wasm_prebuilt, h]
    simp
  · intro h1 h2
    simp only [try_download_wasm_prebuilt, h1, h2]
    simp

theorem c1_amended_witness :
    try_download_wasm_prebuilt world_c1b fs_prebuilt_cached =
      (some ["o", "wasm-prebuilt"], [Event.warn], fs_prebuilt_cached) :=
  (c1_amended_override_then_cache world_c1b fs_prebuilt_cached).2 rfl (by decide)

/-- Recognizer for network download events. -/
def is_download : Event → Bool
  | .download _ _ => true
  | _ => false

/-- On a prebuilt miss the fetcher falls back to the WASM source build. -/
theorem build_wasm_fallback (w : World) (fs : FS)
    (h : (try_download_wasm_prebuilt w fs).1 = none) :
    build_wasm w fs =
      match build_wasm_from_source w (try_download_wasm_prebuilt w fs).2.2 with
      | .ok (tr2, fs2) =>
        .ok ((try_download_wasm_prebuilt w fs).2.1 ++ Event.warn :: tr2, fs2)
      | .error e => .error e := by
  simp only [build_wasm, h]

/-- C3: on a cache miss (override unset, cache directory creatable) the
fetcher attempts exactly the two download tools in order — curl alone
when curl exits zero, otherwise curl then wget, each at most once; the
result is unavailable (`none`) exactly when both tools fail, or the
extraction fails, or the extracted tree lacks the library file; and on
`none` the caller `build_wasm` falls back to the WASM source build
instead of aborting. -/
theorem c3_download_fallback (w : World) (fs : FS)
    (hov : w.env.wasmFromSource = false)
    (hmiss : fs.pathExists (wasm_lib_file_path w.env) = false)
    (hmk : w.mkdirPrebuiltOk = true) :
    ((try_download_wasm_prebuilt w fs).2.1.filter is_download =
      if w.curlOk then [Event.download "curl" wasm_prebuilt_url]
      else [Event.download "curl" wasm_prebuilt_url,
            Event.download "wget" wasm_prebuilt_url])
  ∧ ((try_download_wasm_prebuilt w fs).1 = none ↔
      ((w.curlOk || w.wgetOk) = false ∨ w.tarOk = false ∨
       (w.tarEffect (fs.mkdirAll (wasm_prebuilt_dir_path w.env))).pathExists
         (wasm_lib_file_path w.env) = false))
  ∧ ((try_download_wasm_prebuilt w fs).1 = none →
      build_wasm w fs =
        match build_wasm_from_source w (try_download_wasm_prebuilt w fs).2.2 with
        | .ok (tr2, fs2) =>
          .ok ((try_download_wasm_prebuilt w fs).2.1 ++ Event.warn :: tr2, fs2)
        | .error e => .error e) := by
  refine ⟨?_, ?_, fun h => build_wasm_fallback w fs h⟩
  · simp only [try_download_wasm_prebuilt, hov, hmiss, hmk]
    cases hcurl : w.curlOk <;> cases hwget : w.wgetOk <;> cases htar : w.tarOk <;>
      simp [is_download] <;> split <;> simp [is_download]
  · simp only [try_download_wasm_prebuilt, hov, hmiss, hmk]
    cases hcurl : w.curlOk <;> cases hwget : w.wgetOk <;> cases htar : w.tarOk <;>
      simp <;> split <;> simp_all

/-- World for the C3 witness: override unset, both download tools fail. -/
def world_c3 : World :=
  { world_base with
    env := { env_base with targetArch := "wasm32" }
    curlOk := false
    wgetOk := false }

theorem c3_witness :
    (try_download_wasm_prebuilt world_c3 fs_empty).1 = none :=
  (c3_download_fallback world_c3 fs_empty rfl rfl rfl).2.1.mpr (Or.inl rfl)

/-! ## Claim C10 (write-through bindings cache failures are non-fatal) -/

/-- Whether a build step succeeded. -/
def is_ok_result : BuildResult → Bool
  | .ok _ => true
  | .error _ => false

/-- C10: when bindings are freshly generated with the external
bindings-cache override set, the `.ok()`-ignored cache-write steps never
make the build fail: for every setting of the cache-directory-creation
and cache-copy oracles the fresh-generation step succeeds, and the
bindings file is at the fixed output path on success. -/
theorem c10_cache_write_failures_nonfatal (w : World) (sp : Path) (fs : FS)
    (cache_dir : String)
    (hdir : w.env.bindingsDir = some cache_dir)
    (hgen : w.bindgenOk = true)
    (hwrite : w.bindingsWriteOk = true) :
    (∀ b1 b2 : Bool,
      is_ok_result (generate_bindings_fresh
        { w with cacheMkdirOk := b1, cacheCopyOk := b2 } sp fs) = true)
  ∧ (∀ tr fs1, generate_bindings_fresh w sp fs = .ok (tr, fs1) →
      fs1.pathExists (bindings_out_path w.env) = true) := by
  constructor
  · intro b1 b2
    simp [generate_bindings_fresh, hgen, hwrite, hdir, is_ok_result]
  · intro tr fs1 hok
    exact generate_bindings_fresh_writes w sp fs tr fs1 hok

/-- World for the C10 witness: cache directory set, both cache-write
operations failing. -/
def world_c10 : World :=
  { world_base with
    env := { env_base with bindingsDir := some "c" }
    cacheMkdirOk := false
    cacheCopyOk := false }

theorem c10_witness :
    is_ok_result (generate_bindings_fresh world_c10 ["s"] fs_empty) = true :=
  (c10_cache_write_failures_nonfatal world_c10 ["s"] fs_empty "c"
    rfl rfl rfl).1 false false

/-! ## Claim C6 (bindings-cache short circuit) -/

/-- A successful external-cache hit copies the cached file. -/
theorem generate_bindings_cached_hit (w : World) (sp : Path) (fs : FS)
    (cache_dir : String)
    (hdir : w.env.bindingsDir = some cache_dir)
    (hhit : fs.pathExists [cache_dir, "bindings.rs"] = true) :
    generate_bindings_cached w sp fs =
      .ok ([Event.warn],
        fs.copyFile [cache_dir, "bindings.rs"] (bindings_out_path w.env)) := by
  simp [generate_bindings_cached, hdir, hhit]

/-- WASM world with both a vendored snapshot and a cache hit. -/
def world_c6 : World :=
  { world_base with
    env := { env_base with targetArch := "wasm32", bindingsDir := some "c" } }

/-- Filesystem holding a vendored bindings snapshot and a cached
bindings file with different contents. -/
def fs_c6 : FS where
  pathExists := fun p =>
    p == ["m", "src", "bindings_vendored.rs"] || p == ["c", "bindings.rs"]
  content := fun p =>
    if p == ["m", "src", "bindings_vendored.rs"] then some "VENDORED"
    else if p == ["c", "bindings.rs"] then some "CACHED"
    else none
  entries := fun _ => []

/-- C6 counterexample: the bindings-cache override is set and the cache
file exists, yet the generator copies the vendored snapshot — the cached
file is not the one copied, because on wasm32 the vendored provenance
has higher priority. -/
theorem c6_counterexample :
    world_c6.env.bindingsDir = some "c"
  ∧ fs_c6.pathExists ["c", "bindings.rs"] = true
  ∧ fs_c6.content ["c", "bindings.rs"] = some "CACHED"
  ∧ generate_bindings world_c6 (default_source_path world_c6.env) fs_c6 =
      .ok ([Event.warn],
        fs_c6.copyFile ["m", "src", "bindings_vendored.rs"] ["o", "bindings.rs"])
  ∧ (fs_c6.copyFile ["m", "src", "bindings_vendored.rs"]
      ["o", "bindings.rs"]).content ["o", "bindings.rs"] = some "VENDORED" :=
  ⟨rfl, by decide, by decide, rfl, by decide⟩

/-- C6 amended: when the external bindings-cache override is set and
that directory contains `bindings.rs`, the generator never invokes
fresh generation; the output is the cached file copied verbatim —
except on wasm32 targets when the vendored snapshot exists, in which
case the vendored snapshot (the higher-priority provenance) is copied
instead.  Exactly one provenance supplies the output file. -/
theorem c6_amended_cache_short_circuit (w : World) (sp : Path) (fs : FS)
    (cache_dir : String)
    (hdir : w.env.bindingsDir = some cache_dir)
    (hhit : fs.pathExists [cache_dir, "bindings.rs"] = true) :
    generate_bindings w sp fs =
      (if w.env.targetArch = "wasm32" ∧
          fs.pathExists [w.env.manifestDir, "src", "bindings_vendored.rs"] = true then
        .ok ([Event.warn],
          fs.copyFile [w.env.manifestDir, "src", "bindings_vendored.rs"]
            (bindings_out_path w.env))
      else if w.env.targetArch = "wasm32" then
        .ok ([Event.warn, Event.warn],
          fs.copyFile [cache_dir, "bindings.rs"] (bindings_out_path w.env))
      else
        .ok ([Event.warn],
          fs.copyFile [cache_dir, "bindings.rs"] (bindings_out_path w.env)))
  ∧ (∀ tr fs1, generate_bindings w sp fs = .ok (tr, fs1) →
      ∀ hp, Event.bindgenRun hp ∉ tr) := by
  have hchar : generate_bindings w sp fs =
      (if w.env.targetArch = "wasm32" ∧
          fs.pathExists [w.env.manifestDir, "src", "bindings_vendored.rs"] = true then
        .ok ([Event.warn],
          fs.copyFile [w.env.manifestDir, "src", "bindings_vendored.rs"]
            (bindings_out_path w.env))
      else if w.env.targetArch = "wasm32" then
        .ok ([Event.warn, Event.warn],
          fs.copyFile [cache_dir, "bindings.rs"] (bindings_out_path w.env))
      else
        .ok ([Event.warn],
          fs.copyFile [cache_dir, "bindings.rs"] (bindings_out_path w.env))) := by
    by_cases harch : w.env.targetArch = "wasm32"
    · by_cases hv :
        fs.pathExists [w.env.manifestDir, "src", "bindings_vendored.rs"] = true
      · simp [generate_bindings, harch, hv]
      · simp [generate_bindings,
          generate_bindings_cached_hit w sp fs cache_dir hdir hhit, harch, hv]
    · simp [generate_bindings,
        generate_bindings_cached_hit w sp fs cache_dir hdir hhit, harch]
  refine ⟨hchar, ?_⟩
  intro tr fs1 hok hp hmem
  rw [hchar] at hok
  split at hok
  · simp only [Except.ok.injEq, Prod.mk.injEq] at hok
    obtain ⟨h1, -⟩ := hok
    subst h1
    simp at hmem
  · split at hok <;>
      (simp only [Except.ok.injEq, Prod.mk.injEq] at hok
       obtain ⟨h1, -⟩ := hok
       subst h1
       simp at hmem)

/-- Non-WASM world with the bindings cache set. -/
def world_c6b : World :=
  { world_base with env := { env_base with bindingsDir := some "c" } }

/-- Filesystem holding only the cached bindings file. -/
def fs_c6b : FS where
  pathExists := fun p => p == ["c", "bindings.rs"]
  content := fun p => if p == ["c", "bindings.rs"] then some "CACHED" else none
  entries := fun _ => []

theorem c6_witness :
    generate_bindings world_c6b ["s"] fs_c6b =
      .ok ([Event.warn], fs_c6b.copyFile ["c", "bindings.rs"] ["o", "bindings.rs"]) :=
  (c6_amended_cache_short_circuit world_c6b ["s"] fs_c6b "c" rfl (by decide)).1

/-! ## Event characterizations of the remaining steps -/

/-- Every event of the prebuilt fetcher is a warning, one of the two
download attempts, or the tar invocation. -/
theorem try_download_events (w : World) (fs : FS) :
    ∀ e ∈ (try_download_wasm_prebuilt w fs).2.1,
      e = Event.warn ∨ e = Event.download "curl" wasm_prebuilt_url ∨
      e = Event.download "wget" wasm_prebuilt_url ∨ e = Event.tarRun := by
  intro e he
  simp only [try_download_wasm_prebuilt] at he
  by_cases hov : w.env.wasmFromSource = true <;>
  by_cases hhit : fs.pathExists (wasm_lib_file_path w.env) = true <;>
  by_cases hmk : w.mkdirPrebuiltOk = true <;>
  cases hcurl : w.curlOk <;> cases hwget : w.wgetOk <;> cases htar : w.tarOk <;>
  by_cases hlib : (w.tarEffect (fs.mkdirAll (wasm_prebuilt_dir_path w.env))).pathExists
      (wasm_lib_file_path w.env) = true <;>
    simp [hov, hhit, hmk, hcurl, hwget, htar, hlib] at he <;>
    tauto

/-- When the prebuilt fetcher returns a path, it is the fixed cache
directory under the build output directory. -/
theorem try_download_some_path (w : World) (fs : FS) (p : Path)
    (h : (try_download_wasm_prebuilt w fs).1 = some p) :
    p = wasm_prebuilt_dir_path w.env := by
  simp only [try_download_wasm_prebuilt] at h
  by_cases hov : w.env.wasmFromSource = true <;>
  by_cases hhit : fs.pathExists (wasm_lib_file_path w.env) = true <;>
  by_cases hmk : w.mkdirPrebuiltOk = true <;>
  cases hcurl : w.curlOk <;> cases hwget : w.wgetOk <;> cases htar : w.tarOk <;>
  by_cases hlib : (w.tarEffect (fs.mkdirAll (wasm_prebuilt_dir_path w.env))).pathExists
      (wasm_lib_file_path w.env) = true <;>
    simp [hov, hhit, hmk, hcurl, hwget, htar, hlib] at h <;>
    exact h.symm

/-- The fetcher never emits the std-C++-link marker. -/
theorem try_download_no_std (w : World) (fs : FS) :
    Event.stdCppLink ∉ (try_download_wasm_prebuilt w fs).2.1 := by
  intro h
  rcases try_download_events w fs _ h with h1 | h1 | h1 | h1 <;> simp at h1

/-- Every event of `emit_std_cpp_link` is the marker, a warning, or one
of the two dynamic C++ runtime link entries. -/
theorem emit_std_cpp_link_events (os abi : String) :
    ∀ e ∈ emit_std_cpp_link os abi,
      e = Event.stdCppLink ∨ e = Event.warn ∨
      e = Event.linkLib "dylib" "stdc++" ∨ e = Event.linkLib "dylib" "c++" := by
  intro e he
  simp only [emit_std_cpp_link, std_cpp_link_directives] at he
  rcases List.mem_cons.mp he with rfl | he
  · exact Or.inl rfl
  · split at he <;> (fin_cases he <;> simp)

/-- A successful WASM source build leaves the bindings file at the
fixed output path. -/
theorem build_wasm_from_source_writes (w : World) (fs : FS)
    (tr : List Event) (fs1 : FS)
    (hok : build_wasm_from_source w fs = .ok (tr, fs1)) :
    fs1.pathExists (bindings_out_path w.env) = true := by
  rcases hsd : w.env.sourceDir with - | d <;>
    simp only [build_wasm_from_source, hsd] at hok <;>
    (split at hok
     · exact Except.noConfusion hok
     · split at hok
       · rename_i tr2 fs3 heq
         simp only [Except.ok.injEq, Prod.mk.injEq] at hok
         obtain ⟨-, h2⟩ := hok
         exact h2 ▸ generate_bindings_writes w _ _ tr2 fs3 heq
       · exact Except.noConfusion hok)

/-- A successful native source build leaves the bindings file at the
fixed output path. -/
theorem build_from_source_writes (w : World) (fs : FS)
    (tr : List Event) (fs1 : FS)
    (hok : build_from_source w fs = .ok (tr, fs1)) :
    fs1.pathExists (bindings_out_path w.env) = true := by
  rcases hsd : w.env.sourceDir with - | d <;>
    simp only [build_from_source, hsd] at hok <;>
    (split at hok
     · rename_i tr2 fs3 heq
       simp only [Except.ok.injEq, Prod.mk.injEq] at hok
       obtain ⟨-, h2⟩ := hok
       exact h2 ▸ generate_bindings_writes w _ _ tr2 fs3 heq
     · exact Except.noConfusion hok)

/-- A successful WASM source build never emits the std-C++-link marker. -/
theorem build_wasm_from_source_no_std (w : World) (fs : FS)
    (tr : List Event) (fs1 : FS)
    (hok : build_wasm_from_source w fs = .ok (tr, fs1)) :
    Event.stdCppLink ∉ tr := by
  rcases hsd : w.env.sourceDir with - | d <;>
    simp only [build_wasm_from_source, hsd] at hok <;>
    (split at hok
     · exact Except.noConfusion hok
     · split at hok
       · rename_i tr2 fs3 heq
         simp only [Except.ok.injEq, Prod.mk.injEq] at hok
         obtain ⟨h1, -⟩ := hok
         subst h1
         intro hmem
         rcases List.mem_append.mp hmem with h | h
         · simp at h
         · rcases generate_bindings_events w _ _ tr2 fs3 heq _ h with h2 | h2 <;>
             simp at h2
       · exact Except.noConfusion hok)

/-- Successful `build_wasm` runs never emit the std-C++-link marker. -/
theorem build_wasm_no_std (w : World) (fs : FS) (tr : List Event) (fs1 : FS)
    (hok : build_wasm w fs = .ok (tr, fs1)) :
    Event.stdCppLink ∉ tr := by
  simp only [build_wasm] at hok
  split at hok
  · split at hok <;>
      (simp only [Except.ok.injEq, Prod.mk.injEq] at hok
       obtain ⟨h1, -⟩ := hok
       subst h1
       intro hmem
       rcases List.mem_append.mp hmem with h | h
       · exact try_download_no_std w fs h
       · simp at h)
  · split at hok
    · rename_i tr2 fs2 heq
      simp only [Except.ok.injEq, Prod.mk.injEq] at hok
      obtain ⟨h1, -⟩ := hok
      subst h1
      intro hmem
      rcases List.mem_append.mp hmem with h | h
      · exact try_download_no_std w fs h
      · rcases List.mem_cons.mp h with h2 | h2
        · simp at h2
        · exact build_wasm_from_source_no_std w _ tr2 fs2 heq h2
    · exact Except.noConfusion hok

/-! ## Claim C4 (WASM builds never run emit_std_cpp_link) -/

/-- C4: on every wasm32 build that completes, the std-C++ runtime link
emission step is never executed — the WASM branch of the strategy selector
returns before `emit_std_cpp_link`, on the prebuilt and the source-build
sub-paths alike. -/
theorem c4_wasm_no_std_cpp_link (w : World) (fs : FS)
    (tr : List Event) (fs1 : FS)
    (harch : w.env.targetArch = "wasm32")
    (hok : main w fs = .ok (tr, fs1)) :
    Event.stdCppLink ∉ tr := by
  simp only [main] at hok
  split at hok
  · split at hok
    · rename_i tr0 fs0 heq
      simp only [Except.ok.injEq, Prod.mk.injEq] at hok
      obtain ⟨h1, -⟩ := hok
      subst h1
      intro hmem
      rcases List.mem_cons.mp hmem with h | h
      · simp at h
      · rcases generate_bindings_events w _ fs tr0 fs0 heq _ h with h2 | h2 <;>
          simp at h2
    · exact Except.noConfusion hok
  · exact build_wasm_no_std w fs tr fs1 hok

/-- WASM world for the C4 witness, with a cached prebuilt library. -/
def world_c4 : World :=
  { world_base with env := { env_base with targetArch := "wasm32" } }

/-- Filesystem for the C4 witness: the prebuilt library is cached. -/
def fs_c4 : FS where
  pathExists := fun p => p == ["o", "wasm-prebuilt", "libFastNoise.a"]
  content := fun _ => none
  entries := fun _ => []

theorem c4_witness :
    Event.stdCppLink ∉
      [Event.warn, Event.warn, Event.linkSearch ["o", "wasm-prebuilt"],
       Event.linkLib "static" "FastNoise"] :=
  c4_wasm_no_std_cpp_link world_c4 fs_c4
    [Event.warn, Event.warn, Event.linkSearch ["o", "wasm-prebuilt"],
     Event.linkLib "static" "FastNoise"] fs_c4 rfl rfl

/-! ## Claim C5 (precompiled-library shortcut) -/

/-- Recognizer for link-search directives. -/
def is_link_search : Event → Bool
  | .linkSearch _ => true
  | _ => false

/-- A successful `generate_bindings` emits no link-search directive. -/
theorem generate_bindings_filter_link_search (w : World) (sp : Path) (fs : FS)
    (tr : List Event) (fs1 : FS)
    (hok : generate_bindings w sp fs = .ok (tr, fs1)) :
    tr.filter is_link_search = [] := by
  rw [List.filter_eq_nil_iff]
  intro e he
  rcases generate_bindings_events w sp fs tr fs1 hok e he with h | h <;>
    simp [h, is_link_search]

/-- The emitter `emit_std_cpp_link` produces no link-search directive. -/
theorem emit_std_cpp_link_filter_link_search (os abi : String) :
    (emit_std_cpp_link os abi).filter is_link_search = [] := by
  rw [List.filter_eq_nil_iff]
  intro e he
  rcases emit_std_cpp_link_events os abi e he with h | h | h | h <;>
    simp [h, is_link_search]

/-- C5: on a native build with the precompiled-library-directory
override set and the force-build-from-source feature unset, the native
source builder is never invoked, the only emitted link-search path is
the override directory, the static library `FastNoise` is linked, and
any fresh bindings generation reads the header under the default
vendored-source location. -/
theorem c5_precompiled_shortcut (w : World) (fs : FS) (lib_dir : String)
    (hdocs : w.env.docsRs = false)
    (harch : ¬ w.env.targetArch = "wasm32")
    (hfeat : w.env.buildFromSource = false)
    (hlib : w.env.libDir = some lib_dir)
    (tr : List Event) (fs1 : FS)
    (hok : main w fs = .ok (tr, fs1)) :
    Event.enterBuildFromSource ∉ tr
  ∧ tr.filter is_link_search = [Event.linkSearch [lib_dir]]
  ∧ Event.linkLib "static" LIB_NAME ∈ tr
  ∧ (∀ hp, Event.bindgenRun hp ∈ tr →
      hp = default_source_path w.env ++ ["include", "FastNoise"] ++ [HEADER_NAME]) := by
  simp only [main, hdocs, hfeat, hlib, Bool.false_eq_true, if_false,
    with_std_cpp_link] at hok
  rw [if_neg harch] at hok
  split at hok
  · rename_i x tr0 fs0 heq
    split at heq
    · rename_i tr2 fs2 heq2
      simp only [Except.ok.injEq, Prod.mk.injEq] at heq hok
      obtain ⟨h1, h2⟩ := heq
      obtain ⟨h3, -⟩ := hok
      subst h3
      subst h1
      refine ⟨?_, ?_, ?_, ?_⟩
      · intro hmem
        rcases List.mem_append.mp hmem with h | h
        · rcases List.mem_append.mp h with h4 | h4
          · simp at h4
          · rcases generate_bindings_events w _ fs tr2 fs2 heq2 _ h4 with h5 | h5 <;>
              simp at h5
        · rcases emit_std_cpp_link_events _ _ _ h with h5 | h5 | h5 | h5 <;>
            simp at h5
      · simp only [List.filter_append,
          generate_bindings_filter_link_search w _ fs tr2 fs2 heq2,
          emit_std_cpp_link_filter_link_search]
        simp [is_link_search]
      · refine List.mem_append.mpr (Or.inl ?_)
        refine List.mem_append.mpr (Or.inl ?_)
        simp
      · intro hp hmem
        rcases List.mem_append.mp hmem with h | h
        · rcases List.mem_append.mp h with h4 | h4
          · simp at h4
          · rcases generate_bindings_events w _ fs tr2 fs2 heq2 _ h4 with h5 | h5
            · simp at h5
            · exact Event.bindgenRun.inj h5
        · rcases emit_std_cpp_link_events _ _ _ h with h5 | h5 | h5 | h5 <;>
            simp at h5
    · exact Except.noConfusion heq
  · exact Except.noConfusion hok

/-- World for the C5 witness: precompiled library directory set. -/
def world_c5 : World :=
  { world_base with env := { env_base with libDir := some "p" } }

/-- The trace of the C5 witness run. -/
def tr_c5 : List Event :=
  [Event.warn, Event.linkSearch ["p"], Event.linkLib "static" "FastNoise",
   Event.warn,
   Event.bindgenRun ["m", "build", "FastNoise2", "include", "FastNoise", "FastNoise_C.h"],
   Event.warn, Event.stdCppLink, Event.linkLib "dylib" "stdc++"]

theorem c5_witness :
    Event.enterBuildFromSource ∉ tr_c5 :=
  (c5_precompiled_shortcut world_c5 fs_empty "p" rfl (by decide) rfl rfl
    tr_c5 (fs_empty.writeFile ["o", "bindings.rs"] "B") rfl).1

/-! ## Claim C2 (bindings are mandatory output) -/

/-- WASM world for the C2 counterexample. -/
def world_c2 : World :=
  { world_base with env := { env_base with targetArch := "wasm32" } }

/-- Filesystem for the C2 counterexample: the prebuilt library is
cached but the bundle holds no `bindings.rs`. -/
def fs_c2 : FS where
  pathExists := fun p => p == ["o", "wasm-prebuilt", "libFastNoise.a"]
  content := fun _ => none
  entries := fun _ => []

/-- C2 counterexample: a non-documentation run that completes
successfully (the WASM prebuilt path, with a cached bundle lacking
`bindings.rs`) and leaves no file at `OUT_DIR/bindings.rs`. -/
theorem c2_counterexample :
    world_c2.env.docsRs = false
  ∧ main world_c2 fs_c2 = .ok
      ([Event.warn, Event.warn, Event.linkSearch ["o", "wasm-prebuilt"],
        Event.linkLib "static" "FastNoise"], fs_c2)
  ∧ fs_c2.pathExists ["o", "bindings.rs"] = false :=
  ⟨rfl, rfl, by decide⟩

/-- C2 amended: every successful non-documentation run leaves the
generated-declarations file at `OUT_DIR/bindings.rs`, except on the
WASM prebuilt path when the fetched bundle lacks a `bindings.rs` file,
in which case the build still succeeds without supplying bindings. -/
theorem c2_amended_bindings_unless_bundle_lacks (w : World) (fs : FS)
    (tr : List Event) (fs1 : FS)
    (hdocs : w.env.docsRs = false)
    (hok : main w fs = .ok (tr, fs1)) :
    fs1.pathExists (bindings_out_path w.env) = true
  ∨ (w.env.targetArch = "wasm32"
     ∧ (try_download_wasm_prebuilt w fs).1 = some (wasm_prebuilt_dir_path w.env)
     ∧ (try_download_wasm_prebuilt w fs).2.2.pathExists
         (wasm_prebuilt_dir_path w.env ++ ["bindings.rs"]) = false) := by
  simp only [main, hdocs, Bool.false_eq_true, if_false] at hok
  split at hok
  · -- wasm32 branch: build_wasm
    rename_i harch
    simp only [build_wasm] at hok
    split at hok
    · rename_i p heq
      have hp := try_download_some_path w fs p heq
      subst hp
      split at hok
      · rename_i hbin
        left
        simp only [Except.ok.injEq, Prod.mk.injEq] at hok
        obtain ⟨-, h2⟩ := hok
        rw [← h2]
        simp [bindings_out_path]
      · rename_i hbin
        right
        exact ⟨harch, heq, by simpa using hbin⟩
    · split at hok
      · rename_i tr2 fs2 heq2
        simp only [Except.ok.injEq, Prod.mk.injEq] at hok
        obtain ⟨-, h2⟩ := hok
        left
        exact h2 ▸ build_wasm_from_source_writes w _ tr2 fs2 heq2
      · exact Except.noConfusion hok
  · -- native branches under with_std_cpp_link
    left
    simp only [with_std_cpp_link] at hok
    split at hok
    · rename_i x tr0 fs0 heq
      simp only [Except.ok.injEq, Prod.mk.injEq] at hok
      obtain ⟨-, h2⟩ := hok
      subst h2
      split at heq
      · -- force build-from-source feature
        split at heq
        · rename_i tr2 fs2 heq2
          simp only [Except.ok.injEq, Prod.mk.injEq] at heq
          obtain ⟨-, h4⟩ := heq
          exact h4 ▸ build_from_source_writes w fs tr2 fs2 heq2
        · exact Except.noConfusion heq
      · -- feature off: precompiled-dir shortcut or fallback source build
        split at heq
        · split at heq
          · rename_i tr2 fs2 heq2
            simp only [Except.ok.injEq, Prod.mk.injEq] at heq
            obtain ⟨-, h4⟩ := heq
            exact h4 ▸ generate_bindings_writes w _ fs tr2 fs2 heq2
          · exact Except.noConfusion heq
        · split at heq
          · rename_i tr2 fs2 heq2
            simp only [Except.ok.injEq, Prod.mk.injEq] at heq
            obtain ⟨-, h4⟩ := heq
            exact h4 ▸ build_from_source_writes w fs tr2 fs2 heq2
          · exact Except.noConfusion heq
    · exact Except.noConfusion hok

/-- Native world for the C2 amended witness. -/
def world_c2b : World := world_base

theorem c2_amended_witness :
    (fs_empty.writeFile ["o", "bindings.rs"] "B").pathExists
        ["o", "bindings.rs"] = true
  ∨ (world_c2b.env.targetArch = "wasm32"
     ∧ (try_download_wasm_prebuilt world_c2b fs_empty).1 =
         some (wasm_prebuilt_dir_path world_c2b.env)
     ∧ (try_download_wasm_prebuilt world_c2b fs_empty).2.2.pathExists
         (wasm_prebuilt_dir_path world_c2b.env ++ ["bindings.rs"]) = false) :=
  c2_amended_bindings_unless_bundle_lacks world_c2b fs_empty
    [Event.warn, Event.enterBuildFromSource, Event.warn, Event.warn,
     Event.cmakeRun "Release" (native_cmake_defines "linux" "gnu"),
     Event.linkSearch ["k", "lib"], Event.linkSearch ["k", "lib64"],
     Event.linkLib "static" "FastNoise", Event.warn,
     Event.bindgenRun ["k", "include", "FastNoise", "FastNoise_C.h"],
     Event.warn, Event.stdCppLink, Event.linkLib "dylib" "stdc++"]
    (fs_empty.writeFile ["o", "bindings.rs"] "B") rfl rfl

end FastNoise2Build
